import Mathlib

/-!
Verification of the fronius-bridge poll-aggregate-publish pipeline.

The development shallowly embeds the two core components of the repository:

* `MqttClient` — the bounded outbound queue with drop-oldest overflow policy
  (`MqttClient::publish`) and the consumer drain loop (`MqttClient::run`);
* `ModbusMaster` — the device poller: the per-tick update functions
  `updateValuesAndJson`, `updateEventsAndJson`, `updateDeviceAndJson` and the
  run-loop tick that dispatches the produced JSON documents to registered
  callbacks.

Doubles of the C++ source are modelled as exact rationals; the fallible
Modbus getters of the external gateway library are modelled as `Except`
values recorded in a `Gateway` structure.
-/

/-! ## Outbound queue (`MqttClient`) -/

/-- State of the MQTT outbound queue: the FIFO of pending payloads
(head = oldest) and the drop counter `droppedCount_`. -/
structure MqttClient where
  queue : List String
  droppedCount : Nat
deriving DecidableEq, Repr

namespace MqttClient

/-- `MqttClient::publish`: if the queue is at (or above) the configured
capacity, remove the oldest entry and increment the drop counter, then push
the new payload at the tail. -/
def publish (queueSize : Nat) (c : MqttClient) (payload : String) : MqttClient :=
  if queueSize ≤ c.queue.length then
    { queue := c.queue.tail ++ [payload], droppedCount := c.droppedCount + 1 }
  else
    { queue := c.queue ++ [payload], droppedCount := c.droppedCount }

/-- Enqueue a list of payloads in order through `publish`. -/
def publishAll (queueSize : Nat) (c : MqttClient) (msgs : List String) : MqttClient :=
  msgs.foldl (publish queueSize) c

/-- The inner drain loop of `MqttClient::run` (lines 115–131): while the
queue is non-empty (connectivity and the shutdown flag held true across the
cycle), attempt delivery of the head payload through the Message Sink.
`outcome i` is the sink's success report for the i-th publish attempt of the
cycle. On success the head is popped and draining continues; on failure the
loop breaks, leaving the queue as it stands. -/
def drainLoop (outcome : Nat → Bool) (i : Nat) : List String → List String
  | [] => []
  | m :: rest =>
      if outcome i then drainLoop outcome (i + 1) rest else m :: rest

/-- One wake cycle of `MqttClient::run`: drain the queue, then reset the
drop counter if and only if the queue ended up empty (lines 133–136). -/
def runCycle (outcome : Nat → Bool) (c : MqttClient) : MqttClient :=
  let q := drainLoop outcome 0 c.queue
  { queue := q, droppedCount := if q.isEmpty then 0 else c.droppedCount }


end MqttClient

/-! ## JSON documents

A minimal model of `nlohmann::ordered_json`: an object is an ordered list of
key/value pairs. -/

/-- Ordered JSON value. -/
inductive JsonVal where
  | num (q : ℚ)
  | int (n : Int)
  | str (s : String)
  | bool (b : Bool)
  | arr (xs : List JsonVal)
  | obj (fields : List (String × JsonVal))

namespace JsonVal

/-- Look up the value of a key in a JSON object (first occurrence). -/
def getKey : JsonVal → String → Option JsonVal
  | .obj fields, k => (fields.find? (fun f => f.1 = k)).map Prod.snd
  | _, _ => none

/-- Whether a JSON object carries a key. -/
def hasKey (j : JsonVal) (k : String) : Bool :=
  (j.getKey k).isSome

end JsonVal

/-! ## Modbus gateway boundary

`ModbusError` is the severity-tagged error type of the external libfronius
gateway; the severities mirror `ModbusError::Severity`. -/

/-- Error severity reported by the gateway. -/
inductive Severity where
  | FATAL
  | TRANSIENT
  | SHUTDOWN
deriving DecidableEq, Repr

/-- A gateway error: severity, numeric code and message. -/
structure ModbusError where
  severity : Severity
  code : Int
  message : String
deriving DecidableEq, Repr

/-- Modelled from the spec: `ModbusError::custom` of the external gateway
library builds an error from a code and message; the claims do not depend on
the severity it assigns, taken here as transient. -/
def ModbusError.custom (code : Int) (message : String) : ModbusError :=
  ⟨.TRANSIENT, code, message⟩

/-- `FroniusTypes::Output` selector for the AC power getters. -/
inductive FroniusOutput where
  | ACTIVE
  | APPARENT
  | REACTIVE
  | FACTOR
deriving DecidableEq, Repr

/-- `FroniusTypes::Phase` selector. -/
inductive FroniusPhase where
  | A
  | B
  | C
deriving DecidableEq, Repr

/-- `FroniusTypes::Input` selector for the DC getters. -/
inductive FroniusInput where
  | TOTAL
  | A
  | B
deriving DecidableEq, Repr

/-- The device gateway boundary consumed by `ModbusMaster`: one fallible raw
register fetch, per-quantity fallible getters, and infallible capability
getters, recorded as the results the external library would return during
one tick. -/
structure Gateway where
  fetchInverterRegisters : Except ModbusError Unit
  getAcEnergy : Except ModbusError ℚ
  getAcPower : FroniusOutput → Except ModbusError ℚ
  getAcVoltage : FroniusPhase → Except ModbusError ℚ
  getAcCurrent : FroniusPhase → Except ModbusError ℚ
  getAcFrequency : Except ModbusError ℚ
  getDcPower : FroniusInput → Except ModbusError ℚ
  getDcVoltage : FroniusInput → Except ModbusError ℚ
  getDcCurrent : FroniusInput → Except ModbusError ℚ
  getDcEnergy : FroniusInput → Except ModbusError ℚ
  getPhases : Int
  getInputs : Int
  isHybrid : Bool
  getActiveStateCode : Int
  getState : Except ModbusError String
  getEvents : Except ModbusError (List String)
  getManufacturer : Except ModbusError String
  getDeviceModel : Except ModbusError String
  getSerialNumber : Except ModbusError String
  getFwVersion : Except ModbusError String
  getOptions : Except ModbusError String
  getModbusDeviceAddress : Except ModbusError Int
  getAcPowerRating : FroniusOutput → Except ModbusError ℚ
  getUseFloatRegisters : Bool
  getId : Int

/-! ## Snapshot types (`ModbusMaster` data structs) -/

/-- Per-phase AC quantities. -/
structure MbPhase where
  acVoltage : ℚ
  acCurrent : ℚ
deriving DecidableEq, Repr

/-- Per-input DC quantities. -/
structure MbInput where
  dcVoltage : ℚ
  dcCurrent : ℚ
  dcPower : ℚ
  dcEnergy : ℚ
deriving DecidableEq, Repr

/-- `ModbusMaster::Values`: all numeric quantities of one successful tick. -/
structure Values where
  time : Nat
  acEnergy : ℚ
  acPowerActive : ℚ
  acPowerApparent : ℚ
  acPowerReactive : ℚ
  acPowerFactor : ℚ
  phase1 : MbPhase
  phase2 : MbPhase
  phase3 : MbPhase
  acFrequency : ℚ
  dcPower : ℚ
  efficiency : ℚ
  input1 : MbInput
  input2 : MbInput
deriving DecidableEq, Repr

/-- `ModbusMaster::Events`: active state code, state string, event list. -/
structure Events where
  activeCode : Int
  state : String
  events : List String
deriving DecidableEq, Repr

/-- `ModbusMaster::Device`: static identity and capability metadata. -/
structure Device where
  manufacturer : String
  model : String
  serialNumber : String
  fwVersion : String
  dataManagerVersion : String
  registerModel : String
  slaveID : Int
  acPowerApparent : ℚ
  id : Int
  isHybrid : Bool
  inputs : Int
  phases : Int
deriving DecidableEq, Repr

/-- Modelled from the spec: `JsonUtils::roundTo` is referenced by the update
functions but its definition is not among the provided sources; modelled as
rounding to the given number of decimal places. No claim depends on its
numeric behaviour. -/
def roundTo (x : ℚ) (digits : Nat) : ℚ :=
  (round (x * 10 ^ digits) : ℤ) / 10 ^ digits

/-- The near-zero-denominator epsilon `1e-12` of the efficiency guard. -/
def effEpsilon : ℚ := 1 / 1000000000000

/-- The derived efficiency of `updateValuesAndJson`
(part_003 lines 488–492): active AC power divided by DC power times 100
when the absolute DC power exceeds `1e-12`, and exactly 0 otherwise. -/
def efficiencyOf (acPowerActive dcPower : ℚ) : ℚ :=
  if effEpsilon < |dcPower| then acPowerActive / dcPower * 100 else 0

namespace ModbusMaster

/-- The phase-2 getter block of `updateValuesAndJson`, guarded by
`inverter_.getPhases() > 1`; an unread phase keeps its zero
initialisation. -/
def readPhase2 (inv : Gateway) : Except ModbusError MbPhase :=
  if 1 < inv.getPhases then do
    let v ← inv.getAcVoltage .B
    let c ← inv.getAcCurrent .B
    pure (⟨v, c⟩ : MbPhase)
  else pure ⟨0, 0⟩

/-- The phase-3 getter block of `updateValuesAndJson`, guarded by
`inverter_.getPhases() > 2`. -/
def readPhase3 (inv : Gateway) : Except ModbusError MbPhase :=
  if 2 < inv.getPhases then do
    let v ← inv.getAcVoltage .C
    let c ← inv.getAcCurrent .C
    pure (⟨v, c⟩ : MbPhase)
  else pure ⟨0, 0⟩

/-- The DC energy getter of `updateValuesAndJson` for one input, guarded by
`!inverter_.isHybrid()`; a hybrid device keeps the zero initialisation and
its `getDcEnergy` is never consulted. -/
def readDcEnergy (inv : Gateway) (i : FroniusInput) : Except ModbusError ℚ :=
  if inv.isHybrid then pure 0
  else (inv.getDcEnergy i).map (fun e => e * (1 / 1000))

/-- The second-input getter block of `updateValuesAndJson`, guarded by
`inverter_.getInputs() == 2`. -/
def readInput2 (inv : Gateway) : Except ModbusError MbInput :=
  if inv.getInputs = 2 then do
    let p ← inv.getDcPower .B
    let v ← inv.getDcVoltage .B
    let c ← inv.getDcCurrent .B
    let e ← readDcEnergy inv .B
    pure (⟨v, c, p, e⟩ : MbInput)
  else pure ⟨0, 0, 0, 0⟩

/-- The value part of `ModbusMaster::updateValuesAndJson` (part_003 lines
402–492): the shutdown check, the raw register fetch, then every quantity
through its fallible getter, aborting on the first failure; quantities whose
guard does not hold (extra phases, second input, DC energy on hybrid
devices) keep their zero initialisation from `Values values{}`. -/
def computeValues (running : Bool) (now : Nat) (inv : Gateway) :
    Except ModbusError Values := do
  if running = false then
    throw (ModbusError.custom 4 "updateValuesAndJson(): Shutdown in progress")
  let _ ← inv.fetchInverterRegisters
  let acEnergy := (← inv.getAcEnergy) * (1 / 1000)
  let acPowerActive ← inv.getAcPower .ACTIVE
  let acPowerApparent ← inv.getAcPower .APPARENT
  let acPowerReactive ← inv.getAcPower .REACTIVE
  let acPowerFactor ← inv.getAcPower .FACTOR
  let phase1V ← inv.getAcVoltage .A
  let phase1C ← inv.getAcCurrent .A
  let phase2 ← readPhase2 inv
  let phase3 ← readPhase3 inv
  let acFrequency ← inv.getAcFrequency
  let dcPower ← inv.getDcPower .TOTAL
  let input1P ← inv.getDcPower .A
  let input1V ← inv.getDcVoltage .A
  let input1C ← inv.getDcCurrent .A
  let input1E ← readDcEnergy inv .A
  let input2 ← readInput2 inv
  pure
    { time := now
      acEnergy := acEnergy
      acPowerActive := acPowerActive
      acPowerApparent := acPowerApparent
      acPowerReactive := acPowerReactive
      acPowerFactor := acPowerFactor
      phase1 := ⟨phase1V, phase1C⟩
      phase2 := phase2
      phase3 := phase3
      acFrequency := acFrequency
      dcPower := dcPower
      efficiency := efficiencyOf acPowerActive dcPower
      input1 := ⟨input1V, input1C, input1P, input1E⟩
      input2 := input2 }

/-- The phase record serialized at 0-based position `i` of the phases array
(the `phaseList` of the source). -/
def phaseAt (v : Values) : Nat → MbPhase
  | 0 => v.phase1
  | 1 => v.phase2
  | _ => v.phase3

/-- The input record serialized at 0-based position `i` of the inputs array
(the `inputList` of the source). -/
def inputAt (v : Values) : Nat → MbInput
  | 0 => v.input1
  | _ => v.input2

/-- `std::clamp(inverter_.getPhases(), 1, 3)` of the JSON builder. -/
def phaseCount (inv : Gateway) : Nat := (max 1 (min inv.getPhases 3)).toNat

/-- `std::clamp(inverter_.getInputs(), 1, 2)` of the JSON builder. -/
def inputCount (inv : Gateway) : Nat := (max 1 (min inv.getInputs 2)).toNat

/-- One entry of the phases array: id (1-based), rounded voltage/current. -/
def phaseEntry (v : Values) (i : Nat) : JsonVal :=
  .obj
    [("id", .int (i + 1)),
     ("ac_voltage", .num (roundTo (phaseAt v i).acVoltage 2)),
     ("ac_current", .num (roundTo (phaseAt v i).acCurrent 3))]

/-- One entry of the inputs array: id (1-based), rounded DC quantities, and
the `dc_energy` key only for non-hybrid devices. -/
def inputEntry (hybrid : Bool) (v : Values) (i : Nat) : JsonVal :=
  .obj
    ([("id", .int (i + 1)),
      ("dc_voltage", .num (roundTo (inputAt v i).dcVoltage 2)),
      ("dc_current", .num (roundTo (inputAt v i).dcCurrent 3)),
      ("dc_power", .num (roundTo (inputAt v i).dcPower 1))] ++
     (if hybrid then [] else [("dc_energy", .num (roundTo (inputAt v i).dcEnergy 1))]))

/-- The JSON document built by `updateValuesAndJson` (part_003 lines
494–548). -/
def buildValuesJson (inv : Gateway) (v : Values) : JsonVal :=
  .obj
    [("time", .int v.time),
     ("ac_energy", .num (roundTo v.acEnergy 1)),
     ("ac_power_active", .num (roundTo v.acPowerActive 1)),
     ("ac_power_apparent", .num (roundTo v.acPowerApparent 1)),
     ("ac_power_reactive", .num (roundTo v.acPowerReactive 1)),
     ("ac_power_factor", .num (roundTo v.acPowerFactor 1)),
     ("phases", .arr ((List.range (phaseCount inv)).map (phaseEntry v))),
     ("ac_frequency", .num (roundTo v.acFrequency 2)),
     ("dc_power", .num (roundTo v.dcPower 1)),
     ("efficiency", .num (roundTo v.efficiency 1)),
     ("inputs", .arr ((List.range (inputCount inv)).map (inputEntry inv.isHybrid v)))]

/-- `ModbusMaster::updateValuesAndJson`: compute the values, then build the
JSON document from them; commit happens in the run loop model. -/
def updateValuesAndJson (running : Bool) (now : Nat) (inv : Gateway) :
    Except ModbusError (Values × JsonVal) :=
  (computeValues running now inv).map (fun v => (v, buildValuesJson inv v))

/-! ## Events update -/

/-- Modelled from the spec: the standard library string hash used by the
event-change log guard; claims depend only on it being a fixed function of
the string contents. -/
def stdHashString (s : String) : Nat :=
  s.foldl (fun h c => h * 31 + c.toNat) 7

/-- The getter part of `ModbusMaster::updateEventsAndJson` (part_003 lines
562–577): the shutdown check, then active code (infallible), state and event
list through fallible getters, aborting on the first failure. -/
def computeEvents (running : Bool) (inv : Gateway) : Except ModbusError Events := do
  if running = false then
    throw (ModbusError.custom 4 "updateEventsAndJson(): Shutdown in progress")
  let state ← inv.getState
  let events ← inv.getEvents
  pure ⟨inv.getActiveStateCode, state, events⟩

/-- The content-hash guard of `updateEventsAndJson` (part_003 lines
579–594): for a non-empty event list, hash the comma-joined list; when it
differs from the stored hash (or none is stored), remember it and emit the
human-facing log line. An empty list clears the stored hash. Returns the new
stored hash and whether the log line was emitted. -/
def eventsHashStep (lastHash : Option Nat) (events : List String) :
    Option Nat × Bool :=
  if events.isEmpty then (none, false)
  else
    let currentHash := stdHashString (String.intercalate ", " events)
    if lastHash ≠ some currentHash then (some currentHash, true)
    else (lastHash, false)

/-- The JSON document built by `updateEventsAndJson` (part_003 lines
596–604). -/
def buildEventsJson (ev : Events) : JsonVal :=
  .obj
    [("active_code", .int ev.activeCode),
     ("state", .str ev.state),
     ("events", .arr (ev.events.map .str))]

/-- `ModbusMaster::updateEventsAndJson`: getters, hash guard, JSON build.
Returns the events snapshot, its document, the new stored hash and whether
the changed-events log line was emitted. -/
def updateEventsAndJson (running : Bool) (inv : Gateway) (lastHash : Option Nat) :
    Except ModbusError (Events × JsonVal × Option Nat × Bool) :=
  (computeEvents running inv).map (fun ev =>
    let hs := eventsHashStep lastHash ev.events
    (ev, buildEventsJson ev, hs.1, hs.2))

/-! ## Device update -/

/-- The getter part of `ModbusMaster::updateDeviceAndJson` (part_003 lines
618–657): the shutdown check, the one-shot flag short-circuit (returns
success with no new snapshot), then the identity and capability getters,
aborting on the first failure. -/
def computeDevice (running : Bool) (inv : Gateway) (deviceUpdated : Bool) :
    Except ModbusError (Option Device) := do
  if running = false then
    throw (ModbusError.custom 4 "updateDeviceAndJson(): Shutdown in progress")
  if deviceUpdated then
    return none
  let manufacturer ← inv.getManufacturer
  let model ← inv.getDeviceModel
  let serialNumber ← inv.getSerialNumber
  let fwVersion ← inv.getFwVersion
  let dataManagerVersion ← inv.getOptions
  let registerModel := if inv.getUseFloatRegisters then "float" else "int+sf"
  let slaveID ← inv.getModbusDeviceAddress
  let acPowerApparent ← inv.getAcPowerRating .APPARENT
  pure (some
    { manufacturer := manufacturer
      model := model
      serialNumber := serialNumber
      fwVersion := fwVersion
      dataManagerVersion := dataManagerVersion
      registerModel := registerModel
      slaveID := slaveID
      acPowerApparent := acPowerApparent
      id := inv.getId
      isHybrid := inv.isHybrid
      inputs := inv.getInputs
      phases := inv.getPhases })

/-- The JSON document built by `updateDeviceAndJson` (part_003 lines
660–674). -/
def buildDeviceJson (d : Device) : JsonVal :=
  .obj
    [("manufacturer", .str d.manufacturer),
     ("model", .str d.model),
     ("serial_number", .str d.serialNumber),
     ("firmware_version", .str d.fwVersion),
     ("data_manager", .str d.dataManagerVersion),
     ("register_model", .str d.registerModel),
     ("slave_id", .int d.slaveID),
     ("inverter_id", .int d.id),
     ("hybrid", .bool d.isHybrid),
     ("mppt_tracker", .int d.inputs),
     ("phases", .int d.phases),
     ("power_rating", .num d.acPowerApparent)]

/-- `ModbusMaster::updateDeviceAndJson`: returns success with no new
snapshot when the one-shot flag is already set, otherwise the fetched
snapshot and its document. -/
def updateDeviceAndJson (running : Bool) (inv : Gateway) (deviceUpdated : Bool) :
    Except ModbusError (Option (Device × JsonVal)) :=
  (computeDevice running inv deviceUpdated).map
    (fun od => od.map (fun d => (d, buildDeviceJson d)))

/-! ## Poller state and the run-loop tick -/

/-- The dispatch channels of the run loop, in tick order. -/
inductive Channel where
  | device
  | values
  | events
deriving DecidableEq, Repr

/-- The mutable state of `ModbusMaster` relevant to the claims: the
connection flag, the one-shot device flag, the committed snapshots with
their JSON documents, and the stored events hash. -/
structure MasterState where
  connected : Bool
  deviceUpdated : Bool
  values : Values
  jsonValues : JsonVal
  events : Events
  jsonEvents : JsonVal
  device : Device
  jsonDevice : JsonVal
  lastEventsHash : Option Nat

/-- The device entry of the tick: a failed update clears the connection flag
and skips dispatch; a successful one commits any new snapshot and, if the
device callback is registered, dispatches the currently committed document
(the freshly built one, or the stored one when the update short-circuited
through the one-shot flag). -/
def deviceStep (inv : Gateway) (cbs : Channel → Bool) (st : MasterState) :
    MasterState × List (Channel × JsonVal) :=
  match updateDeviceAndJson true inv st.deviceUpdated with
  | .error _ => ({ st with connected := false }, [])
  | .ok none =>
      (st, if cbs .device then [(Channel.device, st.jsonDevice)] else [])
  | .ok (some (d, j)) =>
      ({ st with device := d, jsonDevice := j, deviceUpdated := true },
       if cbs .device then [(Channel.device, j)] else [])

/-- The values entry of the tick: a failed update clears the connection flag
and skips dispatch; a successful one commits the snapshot and document and
dispatches the document if the value callback is registered. -/
def valuesStep (inv : Gateway) (now : Nat) (cbs : Channel → Bool)
    (st : MasterState) : MasterState × List (Channel × JsonVal) :=
  match updateValuesAndJson true now inv with
  | .error _ => ({ st with connected := false }, [])
  | .ok (v, j) =>
      ({ st with values := v, jsonValues := j },
       if cbs .values then [(Channel.values, j)] else [])

/-- The events entry of the tick: a failed update clears the connection flag
and skips dispatch; a successful one commits the snapshot, document and new
events hash and dispatches the document if the event callback is
registered. -/
def eventsStep (inv : Gateway) (cbs : Channel → Bool) (st : MasterState) :
    MasterState × List (Channel × JsonVal) :=
  match updateEventsAndJson true inv st.lastEventsHash with
  | .error _ => ({ st with connected := false }, [])
  | .ok (ev, j, h, _) =>
      ({ st with events := ev, jsonEvents := j, lastEventsHash := h },
       if cbs .events then [(Channel.events, j)] else [])

/-- One body of `ModbusMaster::runLoop` while connected (part_003 lines
290–328): run the device, values and events updates in order; a failed
update stores `connected = false` and skips dispatch for that channel only
(`continue`). `cbs` records which callbacks are registered; the returned
list holds the dispatched documents in order. -/
def runLoopTick (inv : Gateway) (now : Nat) (cbs : Channel → Bool)
    (st : MasterState) : MasterState × List (Channel × JsonVal) :=
  let r1 := deviceStep inv cbs st
  let r2 := valuesStep inv now cbs r1.1
  let r3 := eventsStep inv cbs r2.1
  (r3.1, r1.2 ++ r2.2 ++ r3.2)

/-- One iteration of `ModbusMaster::runLoop`: the tick body runs only while
the connection flag is set. -/
def runLoopIter (inv : Gateway) (now : Nat) (cbs : Channel → Bool)
    (st : MasterState) : MasterState × List (Channel × JsonVal) :=
  if st.connected then runLoopTick inv now cbs st else (st, [])

/-- The gateway connect callback registered in the `ModbusMaster`
constructor (part_003 lines 221–234): validate the device and store the
connection flag accordingly; the one-shot device flag is not touched. -/
def onConnectEvent (validateOk : Bool) (st : MasterState) : MasterState :=
  { st with connected := validateOk }

/-- The gateway disconnect callback (part_003 lines 236–245): clear the
connection flag. -/
def onDisconnectEvent (st : MasterState) : MasterState :=
  { st with connected := false }

/-- Effects of the gateway error callback (part_003 lines 247–265). -/
structure ErrorEffects where
  shutdownInvoked : Bool
  disconnected : Bool
  reconnectTriggered : Bool
deriving DecidableEq, Repr

/-- The gateway error callback registered in the `ModbusMaster`
constructor: a fatal error invokes process shutdown; a transient error
clears the connection flag and triggers a gateway reconnect; a
shutdown-in-progress error only clears the connection flag. -/
def onErrorEvent (err : ModbusError) : ErrorEffects :=
  match err.severity with
  | .FATAL => ⟨true, false, false⟩
  | .TRANSIENT => ⟨false, true, true⟩
  | .SHUTDOWN => ⟨false, true, false⟩

/-- The dispatch guard of the `src/src/modbus_master.cpp` variant of
`runLoop` (lines 107–118): a registered callback runs under a try/catch and
an exception escaping it invokes `handler_.shutdown()`. The callback is
modelled as returning `Except`, the error standing for a thrown exception;
the result is whether shutdown was invoked by the dispatch. -/
def dispatchInvoke (cb : Option (String → Except String Unit)) (payload : String) :
    Bool :=
  match cb with
  | none => false
  | some f =>
      match f payload with
      | .ok _ => false
      | .error _ => true

/-! ### Test fixtures -/

/-- A gateway whose every getter succeeds, used to instantiate the claim
theorems at concrete inputs. -/
def okGw : Gateway where
  fetchInverterRegisters := Except.ok ()
  getAcEnergy := Except.ok 1000
  getAcPower := fun _ => Except.ok 100
  getAcVoltage := fun _ => Except.ok 230
  getAcCurrent := fun _ => Except.ok 1
  getAcFrequency := Except.ok 50
  getDcPower := fun _ => Except.ok 500
  getDcVoltage := fun _ => Except.ok 400
  getDcCurrent := fun _ => Except.ok 2
  getDcEnergy := fun _ => Except.ok 2000
  getPhases := 3
  getInputs := 2
  isHybrid := false
  getActiveStateCode := 0
  getState := Except.ok "Running"
  getEvents := Except.ok []
  getManufacturer := Except.ok "Fronius"
  getDeviceModel := Except.ok "Symo"
  getSerialNumber := Except.ok "123"
  getFwVersion := Except.ok "1.0"
  getOptions := Except.ok "DM"
  getModbusDeviceAddress := Except.ok 1
  getAcPowerRating := fun _ => Except.ok 5000
  getUseFloatRegisters := true
  getId := 1

/-- The all-succeeding gateway with a failing raw register fetch. -/
def errGw : Gateway :=
  { okGw with
      fetchInverterRegisters :=
        Except.error ⟨Severity.TRANSIENT, 5, "fetch failed"⟩ }

/-- An all-zero values snapshot, the zero initialisation of `Values{}`. -/
def zeroValues : Values :=
  ⟨0, 0, 0, 0, 0, 0, ⟨0, 0⟩, ⟨0, 0⟩, ⟨0, 0⟩, 0, 0, 0, ⟨0, 0, 0, 0⟩, ⟨0, 0, 0, 0⟩⟩

/-- An empty device snapshot. -/
def zeroDevice : Device :=
  ⟨"", "", "", "", "", "", 0, 0, 0, false, 0, 0⟩

/-- A connected master state with no committed documents yet, used to
instantiate the claim theorems at concrete inputs. -/
def st0 : MasterState where
  connected := true
  deviceUpdated := false
  values := zeroValues
  jsonValues := .obj []
  events := ⟨0, "", []⟩
  jsonEvents := .obj []
  device := zeroDevice
  jsonDevice := .obj []
  lastEventsHash := none

/-- The values snapshot the all-succeeding gateway produces at time 0 (the
derived quantities kept as the unevaluated expressions the update builds). -/
def okValues : Values :=
  ⟨0, 1000 * (1 / 1000), 100, 100, 100, 100, ⟨230, 1⟩, ⟨230, 1⟩, ⟨230, 1⟩,
   50, 500, efficiencyOf 100 500,
   ⟨400, 2, 500, 2000 * (1 / 1000)⟩, ⟨400, 2, 500, 2000 * (1 / 1000)⟩⟩

end ModbusMaster

/-! ## Theorems: outbound queue -/

namespace MqttClient

theorem publishAll_nil (N : Nat) (c : MqttClient) : publishAll N c [] = c := rfl

theorem publishAll_cons (N : Nat) (c : MqttClient) (m : String) (ms : List String) :
    publishAll N c (m :: ms) = publishAll N (publish N c m) ms := rfl

/-- While there is spare capacity, `publish` simply appends and drops nothing. -/
theorem publishAll_fill (N : Nat) (msgs : List String) : ∀ c : MqttClient,
    c.queue.length + msgs.length ≤ N →
    publishAll N c msgs = ⟨c.queue ++ msgs, c.droppedCount⟩ := by
  induction msgs with
  | nil => intro c _; simp [publishAll]
  | cons m ms ih =>
      intro c hc
      have hlt : c.queue.length < N := by
        simp only [List.length_cons] at hc
        omega
      have hstep : publish N c m = ⟨c.queue ++ [m], c.droppedCount⟩ := by
        unfold publish
        rw [if_neg (by omega)]
      rw [publishAll_cons, hstep]
      have h2 : (c.queue ++ [m]).length + ms.length ≤ N := by
        simp only [List.length_append, List.length_cons, List.length_nil]
        simp only [List.length_cons] at hc
        omega
      rw [ih ⟨c.queue ++ [m], c.droppedCount⟩ h2]
      simp

/-- **C1.** The enqueue operation of the bounded queue preserves the capacity
bound: for capacity `N > 0`, (a) a queue of length ≤ N stays of length ≤ N
under `publish`; (b) at capacity, `publish` evicts exactly the oldest element
(head), increments the drop counter by one and inserts the new payload at the
tail, never dropping the newest message; (c) enqueuing `N + 1` messages into
an empty queue leaves exactly the last `N` messages in their original
relative order with drop counter 1. -/
theorem publish_dropOldest_bounded (N : Nat) (hN : 0 < N) :
    (∀ (c : MqttClient) (p : String),
        c.queue.length ≤ N → (publish N c p).queue.length ≤ N) ∧
    (∀ (c : MqttClient) (p : String),
        c.queue.length = N →
        publish N c p = ⟨c.queue.tail ++ [p], c.droppedCount + 1⟩) ∧
    (∀ msgs : List String, msgs.length = N + 1 →
        publishAll N ⟨[], 0⟩ msgs = ⟨msgs.tail, 1⟩) := by
  refine ⟨?_, ?_, ?_⟩
  · intro c p hc
    unfold publish
    by_cases h : N ≤ c.queue.length
    · rw [if_pos h]
      have : c.queue.length = N := le_antisymm hc h
      simp only [List.length_append, List.length_tail, List.length_cons,
        List.length_nil, this]
      omega
    · rw [if_neg h]
      simp only [List.length_append, List.length_cons, List.length_nil]
      omega
  · intro c p hc
    unfold publish
    rw [if_pos (le_of_eq hc.symm)]
  · intro msgs hlen
    have hne : msgs ≠ [] := by
      intro h; rw [h] at hlen; simp at hlen
    obtain ⟨ys, z, hys⟩ : ∃ ys z, msgs = ys ++ [z] := by
      refine ⟨msgs.dropLast, msgs.getLast hne, ?_⟩
      exact (List.dropLast_append_getLast hne).symm
    have hyslen : ys.length = N := by
      have := hlen
      rw [hys] at this
      simp only [List.length_append, List.length_cons, List.length_nil] at this
      omega
    have hfill : publishAll N ⟨[], 0⟩ ys = ⟨ys, 0⟩ := by
      have := publishAll_fill N ys ⟨[], 0⟩ (by simp [hyslen])
      simpa using this
    have hfold : publishAll N ⟨[], 0⟩ (ys ++ [z])
        = publish N (publishAll N ⟨[], 0⟩ ys) z := by
      unfold publishAll
      rw [List.foldl_append]
      rfl
    have hysne : ys ≠ [] := by
      intro h; rw [h] at hyslen; simp at hyslen; omega
    have hlast : publish N ⟨ys, 0⟩ z = ⟨ys.tail ++ [z], 1⟩ := by
      unfold publish
      rw [if_pos (by simp [hyslen])]
    have htail : (ys ++ [z]).tail = ys.tail ++ [z] := by
      cases ys with
      | nil => exact absurd rfl hysne
      | cons a t => simp
    rw [hys, hfold, hfill, hlast, htail]

/-- Concrete instance of `publish_dropOldest_bounded` at capacity 2 and the
three-message run from the spec scenario: enqueuing A, B, C into an empty
queue of capacity 2 leaves B, C with one drop. -/
theorem publish_dropOldest_bounded_witness :
    0 < 2 ∧ publishAll 2 ⟨[], 0⟩ ["A", "B", "C"] = ⟨["B", "C"], 1⟩ := by
  refine ⟨by decide, ?_⟩
  have h := (publish_dropOldest_bounded 2 (by decide)).2.2 ["A", "B", "C"] (by decide)
  simpa using h


/-- **C4.** When the delivery attempt for the head message fails, the drain
loop stops for this wake cycle and the failed message remains at the head of
the queue with the rest of the queue intact, so nothing is lost; only a
successful delivery pops the head (and draining continues on the tail). -/
theorem drainLoop_head_retained (outcome : Nat → Bool) (i : Nat)
    (m : String) (rest : List String) :
    (outcome i = false → drainLoop outcome i (m :: rest) = m :: rest) ∧
    (outcome i = true →
        drainLoop outcome i (m :: rest) = drainLoop outcome (i + 1) rest) := by
  constructor
  · intro h; simp [drainLoop, h]
  · intro h; simp [drainLoop, h]

/-- Concrete instance of `drainLoop_head_retained`: with a sink that fails
every attempt, the queue of a wake cycle is left untouched, head first. -/
theorem drainLoop_head_retained_witness :
    drainLoop (fun _ => false) 0 ["A", "B"] = ["A", "B"] :=
  (drainLoop_head_retained (fun _ => false) 0 "A" ["B"]).1 rfl

/-- **C9.** In one wake cycle of the consumer loop: each successful delivery
removes exactly the head entry; if the cycle ends with an empty queue the
drop counter is reset to 0; and a cycle that ends with a non-empty queue
(after a delivery failure) leaves the drop counter unchanged. -/
theorem runCycle_dropCounter (outcome : Nat → Bool) (c : MqttClient) :
    (∀ (i : Nat) (m : String) (rest : List String), outcome i = true →
        drainLoop outcome i (m :: rest) = drainLoop outcome (i + 1) rest) ∧
    ((drainLoop outcome 0 c.queue).isEmpty = true →
        (runCycle outcome c).droppedCount = 0) ∧
    ((drainLoop outcome 0 c.queue).isEmpty = false →
        (runCycle outcome c).droppedCount = c.droppedCount ∧
        (runCycle outcome c).queue = drainLoop outcome 0 c.queue) := by
  refine ⟨?_, ?_, ?_⟩
  · intro i m rest h; simp [drainLoop, h]
  · intro h; simp [runCycle, h]
  · intro h; simp [runCycle, h]

/-- Concrete instance of `runCycle_dropCounter`: a cycle that delivers one
message and then fails keeps the remaining backlog and the drop counter,
while a fully successful cycle resets the counter to 0. -/
theorem runCycle_dropCounter_witness :
    (runCycle (fun i => i == 0) ⟨["A", "B", "C"], 5⟩).droppedCount = 5 ∧
    (runCycle (fun _ => true) ⟨["A", "B"], 5⟩).droppedCount = 0 := by
  constructor
  · exact ((runCycle_dropCounter (fun i => i == 0) ⟨["A", "B", "C"], 5⟩).2.2
      (by decide)).1
  · exact (runCycle_dropCounter (fun _ => true) ⟨["A", "B"], 5⟩).2.1 (by decide)

end MqttClient

/-! ## Helper lemmas on `Except` -/

theorem exceptBindOk {ε α β : Type} {x : Except ε α} {f : α → Except ε β} {b : β}
    (h : x >>= f = Except.ok b) : ∃ a, x = Except.ok a ∧ f a = Except.ok b := by
  cases x with
  | error e =>
      simp only [Bind.bind, Except.bind] at h
      exact absurd h (by simp)
  | ok a =>
      refine ⟨a, rfl, ?_⟩
      simpa [Bind.bind, Except.bind] using h

theorem exceptMapOk {ε α β : Type} {x : Except ε α} {f : α → β} {b : β}
    (h : Except.map f x = Except.ok b) : ∃ a, x = Except.ok a ∧ f a = b := by
  cases x with
  | error e => simp [Except.map] at h
  | ok a =>
      refine ⟨a, rfl, ?_⟩
      simpa [Except.map] using h

theorem exceptNotOk {ε α : Type} {x : Except ε α} (h : x.isOk = false) :
    ∃ e, x = Except.error e := by
  cases x with
  | error e => exact ⟨e, rfl⟩
  | ok a => simp [Except.isOk, Except.toBool] at h

namespace ModbusMaster

/-- A successful values computation carries the derived efficiency of its own
active AC and DC power fields. -/
theorem computeValues_efficiency (now : Nat) (inv : Gateway) (v : Values)
    (h : computeValues true now inv = Except.ok v) :
    v.efficiency = efficiencyOf v.acPowerActive v.dcPower := by
  unfold computeValues at h
  simp only [Bool.true_eq_false, if_false, reduceIte] at h
  obtain ⟨u0, h0, h⟩ := exceptBindOk h
  obtain ⟨acE, h1, h⟩ := exceptBindOk h
  obtain ⟨pa, h2, h⟩ := exceptBindOk h
  obtain ⟨pap, h3, h⟩ := exceptBindOk h
  obtain ⟨pre, h4, h⟩ := exceptBindOk h
  obtain ⟨pf, h5, h⟩ := exceptBindOk h
  obtain ⟨p1v, h6, h⟩ := exceptBindOk h
  obtain ⟨p1c, h7, h⟩ := exceptBindOk h
  obtain ⟨ph2, h8, h⟩ := exceptBindOk h
  obtain ⟨ph3, h9, h⟩ := exceptBindOk h
  obtain ⟨freq, h10, h⟩ := exceptBindOk h
  obtain ⟨dcp, h11, h⟩ := exceptBindOk h
  obtain ⟨i1p, h12, h⟩ := exceptBindOk h
  obtain ⟨i1v, h13, h⟩ := exceptBindOk h
  obtain ⟨i1c, h14, h⟩ := exceptBindOk h
  obtain ⟨i1e, h15, h⟩ := exceptBindOk h
  obtain ⟨inp2, h16, h⟩ := exceptBindOk h
  obtain ⟨in2, h17, h⟩ := exceptBindOk h
  injection h with h
  subst h
  rfl

/-- A successful values computation requires the raw register fetch and every
unconditionally invoked getter to have succeeded (the getter blocks guarded
by phase count, input count and the hybrid flag are covered through their
read functions). -/
theorem computeValues_ok_getters (now : Nat) (inv : Gateway) (v : Values)
    (h : computeValues true now inv = Except.ok v) :
    inv.fetchInverterRegisters.isOk = true ∧
    inv.getAcEnergy.isOk = true ∧
    (inv.getAcPower .ACTIVE).isOk = true ∧
    (inv.getAcPower .APPARENT).isOk = true ∧
    (inv.getAcPower .REACTIVE).isOk = true ∧
    (inv.getAcPower .FACTOR).isOk = true ∧
    (inv.getAcVoltage .A).isOk = true ∧
    (inv.getAcCurrent .A).isOk = true ∧
    inv.getAcFrequency.isOk = true ∧
    (inv.getDcPower .TOTAL).isOk = true ∧
    (inv.getDcPower .A).isOk = true ∧
    (inv.getDcVoltage .A).isOk = true ∧
    (inv.getDcCurrent .A).isOk = true ∧
    (readPhase2 inv).isOk = true ∧
    (readPhase3 inv).isOk = true ∧
    (readDcEnergy inv .A).isOk = true ∧
    (readInput2 inv).isOk = true := by
  unfold computeValues at h
  simp only [Bool.true_eq_false, if_false, reduceIte] at h
  obtain ⟨u0, h0, h⟩ := exceptBindOk h
  obtain ⟨u1, h1, h⟩ := exceptBindOk h
  obtain ⟨acE, h2, h⟩ := exceptBindOk h
  obtain ⟨pa, h3, h⟩ := exceptBindOk h
  obtain ⟨pap, h4, h⟩ := exceptBindOk h
  obtain ⟨pre, h5, h⟩ := exceptBindOk h
  obtain ⟨pf, h6, h⟩ := exceptBindOk h
  obtain ⟨p1v, h7, h⟩ := exceptBindOk h
  obtain ⟨p1c, h8, h⟩ := exceptBindOk h
  obtain ⟨ph2, h9, h⟩ := exceptBindOk h
  obtain ⟨ph3, h10, h⟩ := exceptBindOk h
  obtain ⟨freq, h11, h⟩ := exceptBindOk h
  obtain ⟨dcp, h12, h⟩ := exceptBindOk h
  obtain ⟨i1p, h13, h⟩ := exceptBindOk h
  obtain ⟨i1v, h14, h⟩ := exceptBindOk h
  obtain ⟨i1c, h15, h⟩ := exceptBindOk h
  obtain ⟨i1e, h16, h⟩ := exceptBindOk h
  obtain ⟨in2, h17, h⟩ := exceptBindOk h
  exact ⟨by simp [h1, Except.isOk, Except.toBool],
    by simp [h2, Except.isOk, Except.toBool],
    by simp [h3, Except.isOk, Except.toBool],
    by simp [h4, Except.isOk, Except.toBool],
    by simp [h5, Except.isOk, Except.toBool],
    by simp [h6, Except.isOk, Except.toBool],
    by simp [h7, Except.isOk, Except.toBool],
    by simp [h8, Except.isOk, Except.toBool],
    by simp [h11, Except.isOk, Except.toBool],
    by simp [h12, Except.isOk, Except.toBool],
    by simp [h13, Except.isOk, Except.toBool],
    by simp [h14, Except.isOk, Except.toBool],
    by simp [h15, Except.isOk, Except.toBool],
    by simp [h9, Except.isOk, Except.toBool],
    by simp [h10, Except.isOk, Except.toBool],
    by simp [h16, Except.isOk, Except.toBool],
    by simp [h17, Except.isOk, Except.toBool]⟩

/-- A failure of the raw register fetch propagates out of the values update
unchanged. -/
theorem updateValues_fetch_error (now : Nat) (inv : Gateway) (e : ModbusError)
    (he : inv.fetchInverterRegisters = Except.error e) :
    updateValuesAndJson true now inv = Except.error e := by
  unfold updateValuesAndJson computeValues
  simp [he, Bind.bind, Except.bind, Except.map, pure, Except.pure]

/-- The device entry of the tick never touches the values or events
snapshots, their documents, or the stored events hash. -/
theorem deviceStep_preserves (inv : Gateway) (cbs : Channel → Bool)
    (st : MasterState) :
    (deviceStep inv cbs st).1.values = st.values ∧
    (deviceStep inv cbs st).1.jsonValues = st.jsonValues ∧
    (deviceStep inv cbs st).1.events = st.events ∧
    (deviceStep inv cbs st).1.jsonEvents = st.jsonEvents ∧
    (deviceStep inv cbs st).1.lastEventsHash = st.lastEventsHash := by
  unfold deviceStep
  cases h : updateDeviceAndJson true inv st.deviceUpdated with
  | error e => simp
  | ok od =>
      cases od with
      | none => simp
      | some dj => obtain ⟨d, j⟩ := dj; simp

/-- The values entry of the tick never touches the device or events
snapshots, their documents, the one-shot flag, or the stored events hash. -/
theorem valuesStep_preserves (inv : Gateway) (now : Nat) (cbs : Channel → Bool)
    (st : MasterState) :
    (valuesStep inv now cbs st).1.device = st.device ∧
    (valuesStep inv now cbs st).1.jsonDevice = st.jsonDevice ∧
    (valuesStep inv now cbs st).1.deviceUpdated = st.deviceUpdated ∧
    (valuesStep inv now cbs st).1.events = st.events ∧
    (valuesStep inv now cbs st).1.jsonEvents = st.jsonEvents ∧
    (valuesStep inv now cbs st).1.lastEventsHash = st.lastEventsHash := by
  unfold valuesStep
  cases h : updateValuesAndJson true now inv with
  | error e => simp
  | ok vj => obtain ⟨v, j⟩ := vj; simp

/-- The events entry of the tick never touches the values or device
snapshots, their documents, or the one-shot flag. -/
theorem eventsStep_preserves (inv : Gateway) (cbs : Channel → Bool)
    (st : MasterState) :
    (eventsStep inv cbs st).1.values = st.values ∧
    (eventsStep inv cbs st).1.jsonValues = st.jsonValues ∧
    (eventsStep inv cbs st).1.device = st.device ∧
    (eventsStep inv cbs st).1.jsonDevice = st.jsonDevice ∧
    (eventsStep inv cbs st).1.deviceUpdated = st.deviceUpdated := by
  unfold eventsStep
  cases h : updateEventsAndJson true inv st.lastEventsHash with
  | error e => simp
  | ok r => obtain ⟨ev, j, hs, lg⟩ := r; simp

/-- Each tick entry reports connectivity as the conjunction of the incoming
flag with its own update's success: a failed update stores false, a
successful one leaves the flag alone. -/
theorem step_connected (inv : Gateway) (now : Nat) (cbs : Channel → Bool)
    (st : MasterState) :
    (deviceStep inv cbs st).1.connected =
      (st.connected && (updateDeviceAndJson true inv st.deviceUpdated).isOk) ∧
    (valuesStep inv now cbs st).1.connected =
      (st.connected && (updateValuesAndJson true now inv).isOk) ∧
    (eventsStep inv cbs st).1.connected =
      (st.connected && (updateEventsAndJson true inv st.lastEventsHash).isOk) := by
  refine ⟨?_, ?_, ?_⟩
  · unfold deviceStep
    cases h : updateDeviceAndJson true inv st.deviceUpdated with
    | error e => simp [Except.isOk, Except.toBool]
    | ok od =>
        cases od with
        | none => simp [Except.isOk, Except.toBool]
        | some dj => obtain ⟨d, j⟩ := dj; simp [Except.isOk, Except.toBool]
  · unfold valuesStep
    cases h : updateValuesAndJson true now inv with
    | error e => simp [Except.isOk, Except.toBool]
    | ok vj => obtain ⟨v, j⟩ := vj; simp [Except.isOk, Except.toBool]
  · unfold eventsStep
    cases h : updateEventsAndJson true inv st.lastEventsHash with
    | error e => simp [Except.isOk, Except.toBool]
    | ok r => obtain ⟨ev, j, hs, lg⟩ := r; simp [Except.isOk, Except.toBool]

/-- A failed values update leaves the whole state untouched except for the
connection flag, and dispatches nothing. -/
theorem valuesStep_error (inv : Gateway) (now : Nat) (cbs : Channel → Bool)
    (st : MasterState) (e : ModbusError)
    (he : updateValuesAndJson true now inv = Except.error e) :
    valuesStep inv now cbs st = ({ st with connected := false }, []) := by
  unfold valuesStep
  rw [he]

/-- The device entry only ever dispatches on the device channel. -/
theorem deviceStep_channels (inv : Gateway) (cbs : Channel → Bool)
    (st : MasterState) :
    ∀ x ∈ (deviceStep inv cbs st).2, x.1 = Channel.device := by
  unfold deviceStep
  cases h : updateDeviceAndJson true inv st.deviceUpdated with
  | error e => simp
  | ok od =>
      cases od with
      | none =>
          by_cases hc : cbs Channel.device <;> simp [hc]
      | some dj =>
          obtain ⟨d, j⟩ := dj
          by_cases hc : cbs Channel.device <;> simp [hc]

/-- The events entry only ever dispatches on the events channel. -/
theorem eventsStep_channels (inv : Gateway) (cbs : Channel → Bool)
    (st : MasterState) :
    ∀ x ∈ (eventsStep inv cbs st).2, x.1 = Channel.events := by
  unfold eventsStep
  cases h : updateEventsAndJson true inv st.lastEventsHash with
  | error e => simp
  | ok r =>
      obtain ⟨ev, j, hs, lg⟩ := r
      by_cases hc : cbs Channel.events <;> simp [hc]

/-- The values entry only ever dispatches on the values channel. -/
theorem valuesStep_channels (inv : Gateway) (now : Nat) (cbs : Channel → Bool)
    (st : MasterState) :
    ∀ x ∈ (valuesStep inv now cbs st).2, x.1 = Channel.values := by
  unfold valuesStep
  cases h : updateValuesAndJson true now inv with
  | error e => simp
  | ok vj =>
      obtain ⟨v, j⟩ := vj
      by_cases hc : cbs Channel.values <;> simp [hc]

/-- **C5.** The derived efficiency: whenever the absolute DC power exceeds
the epsilon `1e-12` it equals active AC power divided by DC power times 100
(a genuine division — multiplying back by the DC power recovers the active
power times 100, so the value is a well-defined rational, never an infinity
or NaN), and it is exactly 0 otherwise; and every successful values update
stores exactly this derived quantity, computed from its own active AC and
DC power fields. -/
theorem efficiency_guard (ac dc : ℚ) :
    (effEpsilon < |dc| →
        efficiencyOf ac dc = ac / dc * 100 ∧ efficiencyOf ac dc * dc = ac * 100) ∧
    (|dc| ≤ effEpsilon → efficiencyOf ac dc = 0) ∧
    (∀ (now : Nat) (inv : Gateway) (v : Values) (j : JsonVal),
        updateValuesAndJson true now inv = Except.ok (v, j) →
        v.efficiency = efficiencyOf v.acPowerActive v.dcPower) := by
  refine ⟨?_, ?_, ?_⟩
  · intro h
    have hdc : dc ≠ 0 := by
      intro h0
      rw [h0, abs_zero] at h
      exact absurd h (by norm_num [effEpsilon])
    refine ⟨?_, ?_⟩
    · unfold efficiencyOf
      rw [if_pos h]
    · unfold efficiencyOf
      rw [if_pos h]
      field_simp
  · intro h
    unfold efficiencyOf
    rw [if_neg (not_lt.mpr h)]
  · intro now inv v j h
    unfold updateValuesAndJson at h
    obtain ⟨a, ha, hb⟩ := exceptMapOk h
    simp only [Prod.mk.injEq] at hb
    obtain ⟨hav, hbj⟩ := hb
    subst hav
    exact computeValues_efficiency now inv a ha

/-- Concrete instance of `efficiency_guard`: 200 W of active AC power out of
500 W DC is 40 % efficiency, and a zero DC power yields exactly 0. -/
theorem efficiency_guard_witness :
    effEpsilon < |(500 : ℚ)| ∧ efficiencyOf 200 500 = 200 / 500 * 100 ∧
    |(0 : ℚ)| ≤ effEpsilon ∧ efficiencyOf 3 0 = 0 := by
  have h1 := (efficiency_guard 200 500).1 (by norm_num [effEpsilon])
  have h2 := (efficiency_guard 3 0).2.1 (by norm_num [effEpsilon])
  exact ⟨by norm_num [effEpsilon], h1.1, by norm_num [effEpsilon], h2⟩


/-- **C2.** A failing values update commits nothing: a raw-register fetch
failure propagates as the whole update's failure; a successful update
requires every invoked getter to have succeeded (contrapositive: any invoked
getter failure fails the update); and when the update fails during a
connected tick the previously committed values snapshot and JSON document
are unchanged, no values document is dispatched, and the run loop stores
Disconnected for the tick. -/
theorem updateValues_no_partial_commit (now : Nat) (inv : Gateway)
    (cbs : Channel → Bool) (st : MasterState) :
    (∀ e, inv.fetchInverterRegisters = Except.error e →
        updateValuesAndJson true now inv = Except.error e) ∧
    (∀ r, updateValuesAndJson true now inv = Except.ok r →
        inv.fetchInverterRegisters.isOk = true ∧
        inv.getAcEnergy.isOk = true ∧
        (inv.getAcPower .ACTIVE).isOk = true ∧
        (inv.getAcPower .APPARENT).isOk = true ∧
        (inv.getAcPower .REACTIVE).isOk = true ∧
        (inv.getAcPower .FACTOR).isOk = true ∧
        (inv.getAcVoltage .A).isOk = true ∧
        (inv.getAcCurrent .A).isOk = true ∧
        inv.getAcFrequency.isOk = true ∧
        (inv.getDcPower .TOTAL).isOk = true ∧
        (inv.getDcPower .A).isOk = true ∧
        (inv.getDcVoltage .A).isOk = true ∧
        (inv.getDcCurrent .A).isOk = true ∧
        (readPhase2 inv).isOk = true ∧
        (readPhase3 inv).isOk = true ∧
        (readDcEnergy inv .A).isOk = true ∧
        (readInput2 inv).isOk = true) ∧
    ((updateValuesAndJson true now inv).isOk = false → st.connected = true →
        (runLoopIter inv now cbs st).1.values = st.values ∧
        (runLoopIter inv now cbs st).1.jsonValues = st.jsonValues ∧
        (runLoopIter inv now cbs st).1.connected = false ∧
        ∀ j, (Channel.values, j) ∉ (runLoopIter inv now cbs st).2) := by
  refine ⟨fun e he => updateValues_fetch_error now inv e he, ?_, ?_⟩
  · intro r h
    unfold updateValuesAndJson at h
    obtain ⟨a, ha, _⟩ := exceptMapOk h
    exact computeValues_ok_getters now inv a ha
  · intro hfail hconn
    obtain ⟨e, he⟩ := exceptNotOk hfail
    have hiter : runLoopIter inv now cbs st = runLoopTick inv now cbs st := by
      simp [runLoopIter, hconn]
    have hval := valuesStep_error inv now cbs (deviceStep inv cbs st).1 e he
    have hdev := deviceStep_preserves inv cbs st
    refine ⟨?_, ?_, ?_, ?_⟩
    · rw [hiter]
      simp only [runLoopTick]
      rw [hval, (eventsStep_preserves inv cbs _).1]
      exact hdev.1
    · rw [hiter]
      simp only [runLoopTick]
      rw [hval, (eventsStep_preserves inv cbs _).2.1]
      exact hdev.2.1
    · rw [hiter]
      simp only [runLoopTick]
      rw [hval, (step_connected inv now cbs _).2.2]
      simp
    · rw [hiter]
      simp only [runLoopTick]
      intro j hj
      rw [hval] at hj
      simp only [List.append_nil, List.mem_append] at hj
      rcases hj with h1 | h3
      · have := deviceStep_channels inv cbs st _ h1
        simp at this
      · have := eventsStep_channels inv cbs _ _ h3
        simp at this

/-- Concrete instance of `updateValues_no_partial_commit`: a gateway whose
register fetch fails leaves the committed snapshot untouched and drops the
connection. -/
theorem updateValues_no_partial_commit_witness :
    updateValuesAndJson true 0 errGw
      = Except.error ⟨Severity.TRANSIENT, 5, "fetch failed"⟩ ∧
    (runLoopIter errGw 0 (fun _ => true) st0).1.values = st0.values ∧
    (runLoopIter errGw 0 (fun _ => true) st0).1.connected = false := by
  have h := updateValues_no_partial_commit 0 errGw (fun _ => true) st0
  exact ⟨h.1 _ rfl, (h.2.2 (by decide) rfl).1, (h.2.2 (by decide) rfl).2.2.1⟩

/-- A successful values update commits the snapshot and document and
dispatches the document exactly when the value callback is registered. -/
theorem valuesStep_ok (inv : Gateway) (now : Nat) (cbs : Channel → Bool)
    (st : MasterState) (v : Values) (j : JsonVal)
    (h : updateValuesAndJson true now inv = Except.ok (v, j)) :
    valuesStep inv now cbs st =
      ({ st with values := v, jsonValues := j },
       if cbs Channel.values then [(Channel.values, j)] else []) := by
  unfold valuesStep
  rw [h]

/-- A successful events update commits the snapshot, document and new hash
and dispatches the document exactly when the event callback is
registered. -/
theorem eventsStep_ok (inv : Gateway) (cbs : Channel → Bool)
    (st : MasterState) (ev : Events) (j : JsonVal) (hs : Option Nat) (lg : Bool)
    (h : updateEventsAndJson true inv st.lastEventsHash = Except.ok (ev, j, hs, lg)) :
    eventsStep inv cbs st =
      ({ st with events := ev, jsonEvents := j, lastEventsHash := hs },
       if cbs Channel.events then [(Channel.events, j)] else []) := by
  unfold eventsStep
  rw [h]

/-- A failed events update leaves the state untouched except for the
connection flag, and dispatches nothing. -/
theorem eventsStep_error (inv : Gateway) (cbs : Channel → Bool)
    (st : MasterState) (e : ModbusError)
    (he : updateEventsAndJson true inv st.lastEventsHash = Except.error e) :
    eventsStep inv cbs st = ({ st with connected := false }, []) := by
  unfold eventsStep
  rw [he]

/-- The stored events hash reaching the events entry of a tick is the
tick-initial one: neither the device nor the values entry touches it. -/
theorem tick_hash_stable (inv : Gateway) (now : Nat) (cbs : Channel → Bool)
    (st : MasterState) :
    ((valuesStep inv now cbs (deviceStep inv cbs st).1).1).lastEventsHash
      = st.lastEventsHash := by
  rw [(valuesStep_preserves inv now cbs _).2.2.2.2.2,
    (deviceStep_preserves inv cbs st).2.2.2.2]

/-- **C6.** The content-hash comparison of the events update governs only
whether the changed-events log line is emitted, never dispatch: the events
snapshot and JSON document produced by `updateEventsAndJson` do not depend
on the stored hash, and in a connected tick whose events update succeeds the
snapshot and document are committed and — when the event callback is
registered — dispatched, regardless of whether the event list changed. -/
theorem updateEvents_hash_only_logs (running : Bool) (inv : Gateway)
    (lh lh' : Option Nat) (now : Nat) (cbs : Channel → Bool) (st : MasterState) :
    ((updateEventsAndJson running inv lh).map (fun r => (r.1, r.2.1))
      = (updateEventsAndJson running inv lh').map (fun r => (r.1, r.2.1))) ∧
    (∀ ev j hs lg, st.connected = true → cbs Channel.events = true →
        updateEventsAndJson true inv st.lastEventsHash = Except.ok (ev, j, hs, lg) →
        (runLoopIter inv now cbs st).1.events = ev ∧
        (runLoopIter inv now cbs st).1.jsonEvents = j ∧
        (Channel.events, j) ∈ (runLoopIter inv now cbs st).2) := by
  constructor
  · unfold updateEventsAndJson
    cases h : computeEvents running inv with
    | error e => simp [Except.map]
    | ok ev => simp [Except.map]
  · intro ev j hs lg hconn hcb he
    have hiter : runLoopIter inv now cbs st = runLoopTick inv now cbs st := by
      simp [runLoopIter, hconn]
    have he2 : updateEventsAndJson true inv
        ((valuesStep inv now cbs (deviceStep inv cbs st).1).1).lastEventsHash
        = Except.ok (ev, j, hs, lg) := by
      rw [tick_hash_stable]
      exact he
    have hev := eventsStep_ok inv cbs _ ev j hs lg he2
    rw [hiter]
    simp only [runLoopTick]
    rw [hev]
    refine ⟨rfl, rfl, ?_⟩
    simp [hcb]

/-- Concrete instance of `updateEvents_hash_only_logs`: with the
all-succeeding gateway the events document of the tick is committed and
dispatched even though the (empty) event list is unchanged. -/
theorem updateEvents_hash_only_logs_witness :
    (runLoopIter okGw 0 (fun _ => true) st0).1.events
      = (⟨0, "Running", []⟩ : Events) ∧
    (Channel.events, buildEventsJson ⟨0, "Running", []⟩)
      ∈ (runLoopIter okGw 0 (fun _ => true) st0).2 := by
  have h := (updateEvents_hash_only_logs true okGw none none 0
      (fun _ => true) st0).2 ⟨0, "Running", []⟩
      (buildEventsJson ⟨0, "Running", []⟩) none false rfl rfl rfl
  exact ⟨h.1, h.2.2⟩

/-- **C8.** Within one connected tick, a failed update disconnects and skips
dispatch for its own channel only: the tick ends connected exactly when all
three updates succeeded, and the dispatched documents of each of the three
channels are dictated by that channel's own update result and callback
registration alone — a failing device update skips the device dispatch (the
device callback fires only in ticks whose device update succeeded, with the
freshly built document or, after the one-shot short-circuit, the stored
one), and the events update is keyed on the tick-initial stored hash, so an
earlier channel's failure neither prevents nor alters the later channels'
updates and dispatches. -/
theorem runLoopTick_channel_isolation (inv : Gateway) (now : Nat)
    (cbs : Channel → Bool) (st : MasterState) (hconn : st.connected = true) :
    ((runLoopIter inv now cbs st).1.connected =
        ((updateDeviceAndJson true inv st.deviceUpdated).isOk
          && (updateValuesAndJson true now inv).isOk
          && (updateEventsAndJson true inv st.lastEventsHash).isOk)) ∧
    ((runLoopIter inv now cbs st).2.filter (fun x => x.1 == Channel.device) =
        (match updateDeviceAndJson true inv st.deviceUpdated with
         | .ok none =>
             if cbs Channel.device then [(Channel.device, st.jsonDevice)] else []
         | .ok (some (_, j)) =>
             if cbs Channel.device then [(Channel.device, j)] else []
         | .error _ => [])) ∧
    ((runLoopIter inv now cbs st).2.filter (fun x => x.1 == Channel.values) =
        (match updateValuesAndJson true now inv with
         | .ok (_, j) => if cbs Channel.values then [(Channel.values, j)] else []
         | .error _ => [])) ∧
    ((runLoopIter inv now cbs st).2.filter (fun x => x.1 == Channel.events) =
        (match updateEventsAndJson true inv st.lastEventsHash with
         | .ok (_, j, _, _) =>
             if cbs Channel.events then [(Channel.events, j)] else []
         | .error _ => [])) := by
  have hiter : runLoopIter inv now cbs st = runLoopTick inv now cbs st := by
    simp [runLoopIter, hconn]
  refine ⟨?_, ?_, ?_, ?_⟩
  · rw [hiter]
    simp only [runLoopTick]
    rw [(step_connected inv now cbs _).2.2, tick_hash_stable,
      (step_connected inv now cbs _).2.1, (step_connected inv now cbs st).1,
      hconn]
    simp [Bool.and_assoc]
  · rw [hiter]
    simp only [runLoopTick]
    rw [List.filter_append, List.filter_append]
    have h2 : ((valuesStep inv now cbs (deviceStep inv cbs st).1).2.filter
        (fun x => x.1 == Channel.device)) = [] := by
      refine List.filter_eq_nil_iff.mpr (fun a ha => ?_)
      have := valuesStep_channels inv now cbs _ a ha
      simp [this]
    have h3 : ((eventsStep inv cbs
        (valuesStep inv now cbs (deviceStep inv cbs st).1).1).2.filter
        (fun x => x.1 == Channel.device)) = [] := by
      refine List.filter_eq_nil_iff.mpr (fun a ha => ?_)
      have := eventsStep_channels inv cbs _ a ha
      simp [this]
    rw [h2, h3]
    unfold deviceStep
    cases hd : updateDeviceAndJson true inv st.deviceUpdated with
    | error e => simp
    | ok od =>
        cases od with
        | none => by_cases hc : cbs Channel.device <;> simp [hc]
        | some dj =>
            obtain ⟨d, j⟩ := dj
            by_cases hc : cbs Channel.device <;> simp [hc]
  · rw [hiter]
    simp only [runLoopTick]
    rw [List.filter_append, List.filter_append]
    have h1 : ((deviceStep inv cbs st).2.filter
        (fun x => x.1 == Channel.values)) = [] := by
      refine List.filter_eq_nil_iff.mpr (fun a ha => ?_)
      have := deviceStep_channels inv cbs st a ha
      simp [this]
    have h3 : ((eventsStep inv cbs
        (valuesStep inv now cbs (deviceStep inv cbs st).1).1).2.filter
        (fun x => x.1 == Channel.values)) = [] := by
      refine List.filter_eq_nil_iff.mpr (fun a ha => ?_)
      have := eventsStep_channels inv cbs _ a ha
      simp [this]
    rw [h1, h3]
    cases hv : updateValuesAndJson true now inv with
    | error e =>
        rw [valuesStep_error inv now cbs _ e hv]
        simp
    | ok vj =>
        obtain ⟨v, j⟩ := vj
        rw [valuesStep_ok inv now cbs _ v j hv]
        by_cases hc : cbs Channel.values <;> simp [hc]
  · rw [hiter]
    simp only [runLoopTick]
    rw [List.filter_append, List.filter_append]
    have h1 : ((deviceStep inv cbs st).2.filter
        (fun x => x.1 == Channel.events)) = [] := by
      refine List.filter_eq_nil_iff.mpr (fun a ha => ?_)
      have := deviceStep_channels inv cbs st a ha
      simp [this]
    have h2 : ((valuesStep inv now cbs (deviceStep inv cbs st).1).2.filter
        (fun x => x.1 == Channel.events)) = [] := by
      refine List.filter_eq_nil_iff.mpr (fun a ha => ?_)
      have := valuesStep_channels inv now cbs _ a ha
      simp [this]
    rw [h1, h2]
    cases hev : updateEventsAndJson true inv st.lastEventsHash with
    | error e =>
        have he2 : updateEventsAndJson true inv
            ((valuesStep inv now cbs (deviceStep inv cbs st).1).1).lastEventsHash
            = Except.error e := by
          rw [tick_hash_stable]
          exact hev
        rw [eventsStep_error inv cbs _ e he2]
        simp
    | ok r =>
        obtain ⟨ev, j, hs, lg⟩ := r
        have he2 : updateEventsAndJson true inv
            ((valuesStep inv now cbs (deviceStep inv cbs st).1).1).lastEventsHash
            = Except.ok (ev, j, hs, lg) := by
          rw [tick_hash_stable]
          exact hev
        rw [eventsStep_ok inv cbs _ ev j hs lg he2]
        by_cases hc : cbs Channel.events <;> simp [hc]

/-- Concrete instance of `runLoopTick_channel_isolation` at the
all-succeeding gateway and a connected initial state. -/
theorem runLoopTick_channel_isolation_witness :
    (runLoopIter okGw 0 (fun _ => true) st0).1.connected =
      ((updateDeviceAndJson true okGw st0.deviceUpdated).isOk
        && (updateValuesAndJson true 0 okGw).isOk
        && (updateEventsAndJson true okGw st0.lastEventsHash).isOk) :=
  (runLoopTick_channel_isolation okGw 0 (fun _ => true) st0 rfl).1


/-- An inputs-array entry carries the 1-based id of its position. -/
theorem inputEntry_id (hy : Bool) (v : Values) (i : Nat) :
    (inputEntry hy v i).getKey "id" = some (.int (i + 1)) := by
  cases hy <;> rfl

/-- An inputs-array entry carries the `dc_energy` key exactly when the
device is not hybrid. -/
theorem inputEntry_dcEnergy (hy : Bool) (v : Values) (i : Nat) :
    (inputEntry hy v i).hasKey "dc_energy" = !hy := by
  cases hy <;> rfl

/-- Overriding the DC energy getter changes none of the other getter
blocks. -/
theorem readPhase2_update (inv : Gateway) (g : FroniusInput → Except ModbusError ℚ) :
    readPhase2 { inv with getDcEnergy := g } = readPhase2 inv := rfl

theorem readPhase3_update (inv : Gateway) (g : FroniusInput → Except ModbusError ℚ) :
    readPhase3 { inv with getDcEnergy := g } = readPhase3 inv := rfl

/-- On a hybrid device the DC energy read ignores the DC energy getter (the
guard short-circuits to the zero initialisation). -/
theorem readDcEnergy_update (inv : Gateway)
    (g : FroniusInput → Except ModbusError ℚ) (hh : inv.isHybrid = true)
    (i : FroniusInput) :
    readDcEnergy { inv with getDcEnergy := g } i = readDcEnergy inv i := by
  unfold readDcEnergy
  simp [hh]

/-- On a hybrid device the second-input read ignores the DC energy getter. -/
theorem readInput2_update (inv : Gateway)
    (g : FroniusInput → Except ModbusError ℚ) (hh : inv.isHybrid = true) :
    readInput2 { inv with getDcEnergy := g } = readInput2 inv := by
  unfold readInput2
  simp only [readDcEnergy_update inv g hh]

/-- **C10.** Every successful values update produces a document whose phases
array has length `clamp(getPhases(), 1, 3)` and whose inputs array has
length `clamp(getInputs(), 1, 2)` — both at least one entry, so a device
reporting 0 phases or 0 inputs still gets one — each entry carrying an `id`
field equal to its 1-based position; each inputs entry carries a
`dc_energy` key exactly when the inverter is not hybrid; and for a hybrid
inverter the whole update is independent of the DC energy getter (it is
never invoked). -/
theorem valuesJson_arrays (now : Nat) (inv : Gateway) (v : Values) (j : JsonVal)
    (h : updateValuesAndJson true now inv = Except.ok (v, j)) :
    (∃ ps, j.getKey "phases" = some (.arr ps) ∧
        ps.length = phaseCount inv ∧ 1 ≤ ps.length ∧ ps.length ≤ 3 ∧
        ∀ i (hi : i < ps.length),
          (ps.get ⟨i, hi⟩).getKey "id" = some (.int (i + 1))) ∧
    (∃ ins, j.getKey "inputs" = some (.arr ins) ∧
        ins.length = inputCount inv ∧ 1 ≤ ins.length ∧ ins.length ≤ 2 ∧
        (∀ i (hi : i < ins.length),
          (ins.get ⟨i, hi⟩).getKey "id" = some (.int (i + 1))) ∧
        (∀ i (hi : i < ins.length),
          (ins.get ⟨i, hi⟩).hasKey "dc_energy" = !inv.isHybrid)) ∧
    (inv.isHybrid = true → ∀ g,
        updateValuesAndJson true now { inv with getDcEnergy := g }
          = Except.ok (v, j)) := by
  have hj : j = buildValuesJson inv v := by
    unfold updateValuesAndJson at h
    obtain ⟨a, ha, hb⟩ := exceptMapOk h
    simp only [Prod.mk.injEq] at hb
    exact hb.2.symm.trans (by rw [hb.1])
  refine ⟨?_, ?_, ?_⟩
  · refine ⟨(List.range (phaseCount inv)).map (phaseEntry v), ?_, ?_, ?_, ?_, ?_⟩
    · rw [hj]; rfl
    · simp
    · simp only [List.length_map, List.length_range]
      unfold phaseCount
      omega
    · simp only [List.length_map, List.length_range]
      unfold phaseCount
      omega
    · intro i hi
      simp only [List.length_map, List.length_range] at hi
      simp [List.get_eq_getElem, List.getElem_map, List.getElem_range,
        phaseEntry, JsonVal.getKey, List.find?]
  · refine ⟨(List.range (inputCount inv)).map (inputEntry inv.isHybrid v),
      ?_, ?_, ?_, ?_, ?_, ?_⟩
    · rw [hj]; rfl
    · simp
    · simp only [List.length_map, List.length_range]
      unfold inputCount
      omega
    · simp only [List.length_map, List.length_range]
      unfold inputCount
      omega
    · intro i hi
      simp only [List.length_map, List.length_range] at hi
      simp only [List.get_eq_getElem, List.getElem_map, List.getElem_range]
      exact inputEntry_id inv.isHybrid v i
    · intro i hi
      simp only [List.length_map, List.length_range] at hi
      simp only [List.get_eq_getElem, List.getElem_map, List.getElem_range]
      exact inputEntry_dcEnergy inv.isHybrid v i
  · intro hh g
    have hc : computeValues true now { inv with getDcEnergy := g }
        = computeValues true now inv := by
      unfold computeValues
      simp only [readPhase2_update, readPhase3_update,
        readDcEnergy_update inv g hh, readInput2_update inv g hh]
    have hb : ∀ w, buildValuesJson { inv with getDcEnergy := g } w
        = buildValuesJson inv w := fun _ => rfl
    unfold updateValuesAndJson at h ⊢
    rw [hc]
    obtain ⟨a, ha, hab⟩ := exceptMapOk h
    rw [ha]
    simp only [Except.map]
    simp only [Prod.mk.injEq] at hab
    obtain ⟨hav, haj⟩ := hab
    subst hav
    rw [hb, haj]

/-- Concrete instance of `valuesJson_arrays` at the all-succeeding
three-phase, two-input, non-hybrid gateway: three phase entries. -/
theorem valuesJson_arrays_witness :
    ∃ ps, (buildValuesJson okGw okValues).getKey "phases" = some (.arr ps) ∧
      ps.length = 3 := by
  have h := valuesJson_arrays 0 okGw okValues
    (buildValuesJson okGw okValues) (by rfl)
  obtain ⟨⟨ps, hps, hlen, -, -, -⟩, -, -⟩ := h
  exact ⟨ps, hps, hlen.trans rfl⟩

/-- The claim that a tick after the first successful device fetch neither
re-fetches nor re-dispatches the device document, and that a reconnect
allows one more fetch, fails on the code at a concrete input: after a
successful first tick the second tick still dispatches the device channel
(the short-circuit returns success, so the run loop re-dispatches the stored
document), and the connect callback leaves the one-shot flag set, so a
reconnect enables no further fetch. -/
theorem device_redispatch_cex :
    ((runLoopIter okGw 1 (fun _ => true)
        (runLoopIter okGw 0 (fun _ => true) st0).1).2.map Prod.fst
      = [Channel.device, Channel.values, Channel.events]) ∧
    ((runLoopIter okGw 0 (fun _ => true) st0).1.deviceUpdated = true) ∧
    ((onConnectEvent true
        (runLoopIter okGw 0 (fun _ => true) st0).1).deviceUpdated = true) :=
  ⟨rfl, rfl, rfl⟩

/-- **C3 (amended).** After the first successful device fetch sets the
one-shot flag, every subsequent tick short-circuits without re-fetching (the
update returns success with no new snapshot, independent of the gateway),
and the flag is set exactly once a successful fetch has happened; however
the run loop still re-dispatches the previously committed device document on
every such tick when the device callback is registered, and the connect
notification does not clear the flag, so a reconnect does not enable a
further fetch. -/
theorem device_once_flag (inv invB : Gateway) (now : Nat)
    (cbs : Channel → Bool) (st : MasterState) :
    (updateDeviceAndJson true inv true = Except.ok none) ∧
    (updateDeviceAndJson true inv true = updateDeviceAndJson true invB true) ∧
    ((deviceStep inv cbs st).1.deviceUpdated
      = (st.deviceUpdated
          || (updateDeviceAndJson true inv st.deviceUpdated).isOk)) ∧
    (st.connected = true → st.deviceUpdated = true → cbs Channel.device = true →
        (Channel.device, st.jsonDevice) ∈ (runLoopIter inv now cbs st).2) ∧
    (∀ v, (onConnectEvent v st).deviceUpdated = st.deviceUpdated) := by
  have hnone : ∀ gw : Gateway, updateDeviceAndJson true gw true = Except.ok none :=
    fun gw => rfl
  refine ⟨hnone inv, (hnone inv).trans (hnone invB).symm, ?_, ?_, fun v => rfl⟩
  · unfold deviceStep
    cases h : updateDeviceAndJson true inv st.deviceUpdated with
    | error e => simp [Except.isOk, Except.toBool]
    | ok od =>
        cases od with
        | none =>
            have : st.deviceUpdated = true := by
              by_contra hfalse
              have hf : st.deviceUpdated = false := by
                cases hdu : st.deviceUpdated
                · rfl
                · exact absurd hdu hfalse
              rw [hf] at h
              unfold updateDeviceAndJson computeDevice at h
              cases hm : inv.getManufacturer with
              | error e => simp [hm, Bind.bind, Except.bind, Except.map,
                  pure, Except.pure] at h
              | ok m =>
                  cases hmo : inv.getDeviceModel with
                  | error e => simp [hm, hmo, Bind.bind, Except.bind,
                      Except.map, pure, Except.pure] at h
                  | ok mo =>
                      cases hsn : inv.getSerialNumber with
                      | error e => simp [hm, hmo, hsn, Bind.bind, Except.bind,
                          Except.map, pure, Except.pure] at h
                      | ok sn =>
                          cases hfw : inv.getFwVersion with
                          | error e => simp [hm, hmo, hsn, hfw, Bind.bind,
                              Except.bind, Except.map, pure, Except.pure] at h
                          | ok fw =>
                              cases hop : inv.getOptions with
                              | error e => simp [hm, hmo, hsn, hfw, hop,
                                  Bind.bind, Except.bind, Except.map, pure,
                                  Except.pure] at h
                              | ok op =>
                                  cases hsl : inv.getModbusDeviceAddress with
                                  | error e => simp [hm, hmo, hsn, hfw, hop,
                                      hsl, Bind.bind, Except.bind, Except.map,
                                      pure, Except.pure] at h
                                  | ok sl =>
                                      cases hrt : inv.getAcPowerRating .APPARENT with
                                      | error e => simp [hm, hmo, hsn, hfw,
                                          hop, hsl, hrt, Bind.bind, Except.bind,
                                          Except.map, pure, Except.pure] at h
                                      | ok rt => simp [hm, hmo, hsn, hfw, hop,
                                          hsl, hrt, Bind.bind, Except.bind,
                                          Except.map, pure, Except.pure] at h
            simp [this]
        | some dj =>
            obtain ⟨d, j⟩ := dj
            simp [Except.isOk, Except.toBool]
  · intro hconn hdev hcb
    have hiter : runLoopIter inv now cbs st = runLoopTick inv now cbs st := by
      simp [runLoopIter, hconn]
    have hd : updateDeviceAndJson true inv st.deviceUpdated = Except.ok none := by
      rw [hdev]
      exact hnone inv
    have hstep : deviceStep inv cbs st = (st, [(Channel.device, st.jsonDevice)]) := by
      unfold deviceStep
      rw [hd]
      simp [hcb]
    rw [hiter]
    simp only [runLoopTick]
    rw [hstep]
    simp

/-- Concrete instance of `device_once_flag`: with the one-shot flag already
set, a connected tick with the device callback registered re-dispatches the
stored device document. -/
theorem device_once_flag_witness :
    (Channel.device,
        ({ st0 with deviceUpdated := true } : MasterState).jsonDevice)
      ∈ (runLoopIter okGw 0 (fun _ => true)
          { st0 with deviceUpdated := true }).2 :=
  (device_once_flag okGw okGw 0 (fun _ => true)
    { st0 with deviceUpdated := true }).2.2.2.1 rfl rfl rfl

/-- The claim that only a fatal gateway error reaches shutdown fails on the
code at a concrete input: in the run-loop dispatch of
src/src/modbus_master.cpp an exception escaping a registered callback also
invokes `handler_.shutdown()`, though it is not a fatal gateway error (a
transient error, by contrast, does not invoke shutdown). -/
theorem shutdown_callback_exception_cex :
    dispatchInvoke (some (fun _ => Except.error "boom")) "payload" = true ∧
    (onErrorEvent ⟨Severity.TRANSIENT, 1, "io"⟩).shutdownInvoked = false :=
  ⟨rfl, rfl⟩

/-- **C7 (amended).** The gateway error callback invokes shutdown exactly on
fatal severity — a transient error only clears the connection flag and
triggers a gateway reconnect, a shutdown-in-progress error only clears the
flag — and the run-loop dispatch step invokes shutdown exactly when an
exception escapes a registered callback: with no callback registered, or a
callback returning normally, no shutdown occurs; a disconnect notification
only clears the connection flag. -/
theorem shutdown_conditions (err : ModbusError)
    (f : String → Except String Unit) (p : String) (st : MasterState) :
    ((onErrorEvent err).shutdownInvoked = true ↔ err.severity = Severity.FATAL) ∧
    ((onErrorEvent err).disconnected = true ↔ err.severity ≠ Severity.FATAL) ∧
    ((onErrorEvent err).reconnectTriggered = true
      ↔ err.severity = Severity.TRANSIENT) ∧
    (dispatchInvoke none p = false) ∧
    (dispatchInvoke (some f) p = true ↔ ∃ e, f p = Except.error e) ∧
    ((onDisconnectEvent st).connected = false) := by
  obtain ⟨sev, code, msg⟩ := err
  refine ⟨?_, ?_, ?_, rfl, ?_, rfl⟩
  · cases sev <;> simp [onErrorEvent]
  · cases sev <;> simp [onErrorEvent]
  · cases sev <;> simp [onErrorEvent]
  · unfold dispatchInvoke
    cases hf : f p with
    | error e => simp [hf]
    | ok u => simp [hf]

end ModbusMaster
